import Mathlib

/-!
Verification development for the portfolio repository: a serverless contact
intake function (src/server/simple-lambda.js, plus the variant of the same
lambda embedded verbatim in the deployment guide, src/unnamed/part_001) and
a canvas starfield animation (src/client/src/components/galaxy-background.tsx).

Numbers: the animation runs on JS doubles; we embed positions, velocities and
life counters of shooting stars as rationals (their updates are additions and
comparisons only), and star/nebula quantities that flow through Math.sin and
Math.cos as reals. Server time (Date.now()) is an integer of epoch
milliseconds supplied as a parameter, and the store write is a parameter of
type Except, error meaning the send rejected.
-/

namespace Portfolio

/-- Parsed JSON body of a contact POST. The handler reads the fields name,
email, subject, message; the id field stands for an identifier a client could
include in the body (the handlers never read it). A field absent from the
JSON is none. -/
structure ContactBody where
  id : Option Int := none
  name : Option String := none
  email : Option String := none
  subject : Option String := none
  message : Option String := none
deriving DecidableEq

/-- A record written to the contacts table, as built by the handlers. -/
structure Submission where
  id : Int
  name : Option String
  email : Option String
  subject : Option String
  message : Option String
  createdAt : String
deriving DecidableEq

/-- Outcome of one handler invocation: HTTP status code, the JSON body as a
list of string fields, and the records persisted to the store. -/
structure LambdaResult where
  statusCode : Nat
  bodyFields : List (String × String)
  writes : List Submission
deriving DecidableEq

/-- JS falsiness of an optional string: undefined and the empty string are
falsy (the check the guide variant applies to name, email, message). -/
def falsy : Option String → Bool
  | none => true
  | some s => s == ""

/-- Handler of src/server/simple-lambda.js. Parameters: HTTP method and path;
the result of JSON.parse on (event.body or the empty object), error meaning
the parse threw; now = Date.now(); nowIso = new Date().toISOString(); db =
outcome of the DynamoDB put. The try/catch wraps parse and put, so either
failure lands in the catch branch, whose body carries message
"Internal server error" together with an error field holding error.message. -/
def srcHandler (method path : String) (body : Except String ContactBody)
    (now : Int) (nowIso : String) (db : Except String Unit) : LambdaResult :=
  if method == "OPTIONS" then
    { statusCode := 200, bodyFields := [], writes := [] }
  else if path == "/health" && method == "GET" then
    { statusCode := 200,
      bodyFields := [("status", "ok"), ("timestamp", nowIso)],
      writes := [] }
  else if path == "/api/contact" && method == "POST" then
    match body with
    | Except.error e =>
        { statusCode := 500,
          bodyFields := [("message", "Internal server error"), ("error", e)],
          writes := [] }
    | Except.ok b =>
        let submission : Submission :=
          { id := now, name := b.name, email := b.email,
            subject := b.subject, message := b.message, createdAt := nowIso }
        match db with
        | Except.error e =>
            { statusCode := 500,
              bodyFields := [("message", "Internal server error"), ("error", e)],
              writes := [] }
        | Except.ok _ =>
            { statusCode := 200,
              bodyFields := [("message", "Contact form submitted successfully"),
                             ("id", toString now)],
              writes := [submission] }
  else
    { statusCode := 404, bodyFields := [("message", "Not Found")], writes := [] }

/-- Handler variant embedded in the deployment guide (src/unnamed/part_001,
lines 288-364): serves GET /api/health with status "healthy", validates that
name, email and message are truthy before writing (400 otherwise), defaults a
falsy subject to "No subject", and its catch branch exposes no error detail. -/
def guideHandler (method path : String) (body : Except String ContactBody)
    (now : Int) (nowIso : String) (db : Except String Unit) : LambdaResult :=
  if method == "OPTIONS" then
    { statusCode := 200, bodyFields := [], writes := [] }
  else if method == "GET" && path == "/api/health" then
    { statusCode := 200,
      bodyFields := [("status", "healthy"), ("timestamp", nowIso),
                     ("environment", "production")],
      writes := [] }
  else if method == "POST" && path == "/api/contact" then
    match body with
    | Except.error _ =>
        { statusCode := 500,
          bodyFields := [("error", "Internal server error")], writes := [] }
    | Except.ok b =>
        if falsy b.name || falsy b.email || falsy b.message then
          { statusCode := 400,
            bodyFields := [("error", "Missing required fields")], writes := [] }
        else
          let subj : String :=
            match b.subject with
            | none => "No subject"
            | some s => if s == "" then "No subject" else s
          let submission : Submission :=
            { id := now, name := b.name, email := b.email,
              subject := some subj, message := b.message, createdAt := nowIso }
          match db with
          | Except.error _ =>
              { statusCode := 500,
                bodyFields := [("error", "Internal server error")], writes := [] }
          | Except.ok _ =>
              { statusCode := 200,
                bodyFields := [("message", "Contact form submitted successfully"),
                               ("id", toString now)],
                writes := [submission] }
  else
    { statusCode := 404, bodyFields := [("error", "Not found")], writes := [] }

/-- Shape check for strings produced by Date.prototype.toISOString:
YYYY-MM-DDTHH:MM:SS.mmmZ, 24 characters. -/
def isoCheck (s : String) : Bool :=
  match s.data with
  | [y1, y2, y3, y4, sep1, mo1, mo2, sep2, d1, d2, t, h1, h2, c1, mi1, mi2,
     c2, se1, se2, dot, ms1, ms2, ms3, z] =>
      y1.isDigit && y2.isDigit && y3.isDigit && y4.isDigit &&
      sep1 == '-' && mo1.isDigit && mo2.isDigit && sep2 == '-' &&
      d1.isDigit && d2.isDigit && t == 'T' &&
      h1.isDigit && h2.isDigit && c1 == ':' &&
      mi1.isDigit && mi2.isDigit && c2 == ':' &&
      se1.isDigit && se2.isDigit && dot == '.' &&
      ms1.isDigit && ms2.isDigit && ms3.isDigit && z == 'Z'
  | _ => false

/-- Ids of the records written by two sequential POST /api/contact calls with
the same parsed body b, observing clock values t1 and t2. -/
def srcContactIds (b : ContactBody) (t1 t2 : Int) : List Int :=
  ((srcHandler "POST" "/api/contact" (Except.ok b) t1 "ts" (Except.ok ())).writes.map
      Submission.id) ++
  ((srcHandler "POST" "/api/contact" (Except.ok b) t2 "ts" (Except.ok ())).writes.map
      Submission.id)

/-! Galaxy animation: shooting stars (rational coordinates, no trig). -/

/-- A shooting star as created by createShootingStar in
galaxy-background.tsx. -/
structure SStar where
  x : ℚ
  y : ℚ
  vx : ℚ
  vy : ℚ
  length : ℚ
  opacity : ℚ
  life : ℚ
deriving DecidableEq

/-- Per-frame update of one shooting star (lines 259-262): position advances
by velocity, life decrements, opacity is recomputed as life / 100 after the
decrement. -/
def updateSStar (s : SStar) : SStar :=
  { s with x := s.x + s.vx, y := s.y + s.vy, life := s.life - 1,
           opacity := (s.life - 1) / 100 }

/-- The shooting-star field of createShootingStar at given canvas size and
Math.random draws r1..r6, each in the interval from 0 inclusive to 1
exclusive: x = r1 * width, y = r2 * height * 0.5, vx = r3 * 8 + 4,
vy = r4 * 4 + 2, length = r5 * 80 + 50, opacity = 1, life = r6 * 150 + 80. -/
def mkShootingStar (W H r1 r2 r3 r4 r5 r6 : ℚ) : SStar :=
  { x := r1 * W, y := r2 * H * (1 / 2), vx := r3 * 8 + 4, vy := r4 * 4 + 2,
    length := r5 * 80 + 50, opacity := 1, life := r6 * 150 + 80 }

/-- createShootingStar (lines 113-125): with probability 0.008 per frame (the
roll draw below the threshold) one new shooting star is pushed onto the end of
the array; otherwise the array is unchanged. -/
def createShootingStar (W H roll r1 r2 r3 r4 r5 r6 : ℚ)
    (l : List SStar) : List SStar :=
  if roll < 8 / 1000 then l ++ [mkShootingStar W H r1 r2 r3 r4 r5 r6] else l

/-- The update-and-removal pass over the shooting-star array (lines 258-269).
It mirrors Array.prototype.forEach with splice(index, 1) inside the callback:
the visited element is updated; if after the update its life is not positive
or it left the canvas on the right or bottom it is spliced out, and the
element that shifts into the visited index is skipped (kept unvisited and
unmodified) because forEach advances to the next index. -/
def shootingPass (W H : ℚ) : List SStar → List SStar
  | [] => []
  | [a] =>
    if (updateSStar a).life ≤ 0 ∨ (updateSStar a).x > W ∨
        (updateSStar a).y > H then
      []
    else
      [updateSStar a]
  | a :: b :: rest =>
    if (updateSStar a).life ≤ 0 ∨ (updateSStar a).x > W ∨
        (updateSStar a).y > H then
      b :: shootingPass W H rest
    else
      updateSStar a :: shootingPass W H (b :: rest)

/-- One frame of shooting-star management in animate, in the order the code
runs it (lines 254-269): first the spawn check, then the update-and-removal
pass over the array, which therefore already visits a star spawned this
frame. -/
def shootingFrame (W H roll r1 r2 r3 r4 r5 r6 : ℚ) (l : List SStar) :
    List SStar :=
  shootingPass W H (createShootingStar W H roll r1 r2 r3 r4 r5 r6 l)

/-- Frame order as the spec words it, for comparison with shootingFrame:
removal happens every frame before the spawn check. -/
def removeThenSpawnFrame (W H roll r1 r2 r3 r4 r5 r6 : ℚ) (l : List SStar) :
    List SStar :=
  createShootingStar W H roll r1 r2 r3 r4 r5 r6 (shootingPass W H l)

/-! Galaxy animation: stars and nebula clouds (phases through Math.sin and
Math.cos, so real-valued). -/

/-- A starfield star (interface Star, lines 3-11). Position and size never
meet trig, phase and brightness do. -/
structure Star where
  x : ℚ
  y : ℚ
  size : ℚ
  brightness : ℝ
  twinkleSpeed : ℝ
  twinklePhase : ℝ
  color : String

/-- Per-frame star update (lines 249-252): only the twinkle phase advances,
by the per-star twinkle speed; position never changes and the star is never
removed. -/
def starStep (s : Star) : Star :=
  { s with twinklePhase := s.twinklePhase + s.twinkleSpeed }

/-- Rendered brightness of a star in drawStar (lines 145-147):
base brightness times (0.5 + 0.5 * sin(phase)). -/
noncomputable def renderedBrightness (s : Star) : ℝ :=
  s.brightness * (0.5 + 0.5 * Real.sin s.twinklePhase)

/-- A nebula cloud (interface NebulaCloud, lines 13-22). -/
structure NebulaCloud where
  x : ℝ
  y : ℝ
  radius : ℝ
  opacity : ℝ
  rotation : ℝ
  rotationSpeed : ℝ
  pulsePhase : ℝ
  color : String

/-- Per-frame nebula update (lines 216-223): rotation advances, the pulse
phase advances by 0.08, and the cloud drifts by sin and cos of the already
incremented phase. There is no wrapping or clamping of the position. -/
noncomputable def nebulaStep (c : NebulaCloud) : NebulaCloud :=
  let p := c.pulsePhase + 0.08
  { c with rotation := c.rotation + c.rotationSpeed,
           pulsePhase := p,
           x := c.x + Real.sin (p * 0.5) * 0.3,
           y := c.y + Real.cos (p * 0.3) * 0.2 }

/-- One frame over the whole star population: every star is visited, none is
added or removed. -/
def starsFrame (l : List Star) : List Star := l.map starStep

/-- One frame over the whole nebula population: every cloud is visited, none
is added or removed. -/
noncomputable def cloudsFrame (l : List NebulaCloud) : List NebulaCloud :=
  l.map nebulaStep

/-- The mutable state the effect closes over: canvas size and the particle
arrays. -/
structure GalaxyState where
  width : ℚ
  height : ℚ
  stars : List Star
  nebulaClouds : List NebulaCloud
  shootingStars : List SStar

/-- resizeCanvas (lines 64-67): sets the canvas size to the new viewport
size. It touches nothing else; the population arrays, filled once when the
effect mounts, are not rebuilt. -/
def resizeCanvas (g : GalaxyState) (w h : ℚ) : GalaxyState :=
  { g with width := w, height := h }

/-! Concrete inputs used by counterexamples and witnesses. -/

/-- A well-formed contact body as in the spec example. -/
def validBody : ContactBody :=
  { name := some "A", email := some "a@b.com", message := some "hi" }

/-- A well-formed contact body in which the client also supplies an id. -/
def bodyWithId : ContactBody :=
  { id := some 42, name := some "A", email := some "a@b.com",
    message := some "hi" }

/-- A star positioned at x = 500 in a 1000-wide viewport. -/
noncomputable def starCex : Star :=
  { x := 500, y := 100, size := 1, brightness := 1, twinkleSpeed := 1 / 20,
    twinklePhase := 0, color := "#ffffff" }

/-- Galaxy state before a resize: 1000 by 800 canvas holding starCex. -/
noncomputable def galaxyCex : GalaxyState :=
  { width := 1000, height := 800, stars := [starCex], nebulaClouds := [],
    shootingStars := [] }

/-- A shooting star one frame away from expiry. -/
def sStarA : SStar :=
  { x := 0, y := 0, vx := 1, vy := 1, length := 50, opacity := 1, life := 1 }

/-- A shooting star with five frames of life left, sitting right after
sStarA in the array. -/
def sStarB : SStar :=
  { x := 0, y := 0, vx := 1, vy := 1, length := 50, opacity := 1, life := 5 }

/-- A shooting star with two frames of life left. -/
def cStar : SStar :=
  { x := 0, y := 0, vx := 1, vy := 1, length := 50, opacity := 1, life := 2 }

/-- A nebula cloud sitting on the right edge of a 1000-wide viewport, with
its pulse phase chosen so that the next drift step moves it right. -/
noncomputable def cloudCex : NebulaCloud :=
  { x := 1000, y := 0, radius := 100, opacity := 1 / 5, rotation := 0,
    rotationSpeed := 0, pulsePhase := Real.pi - 0.08, color := "#4b0082" }

/-- A star with base brightness 1, twinkle speed 0.1 and phase 0. -/
noncomputable def starW : Star :=
  { x := 0, y := 0, size := 1, brightness := 1, twinkleSpeed := 1 / 10,
    twinklePhase := 0, color := "#ffffff" }

/-! Theorems for the claims, and supporting lemmas. -/

/-- The guide variant of the lambda does validate: an empty parsed body is
rejected with 400 and nothing is written. -/
theorem guideHandler_rejects_empty_body :
    (guideHandler "POST" "/api/contact" (Except.ok {}) 0 "ts"
        (Except.ok ())).statusCode = 400 ∧
    (guideHandler "POST" "/api/contact" (Except.ok {}) 0 "ts"
        (Except.ok ())).writes = [] := by
  decide

/-- C1: the deployed handler in src/server/simple-lambda.js performs no field
validation: a POST /api/contact whose parsed body has name, email and message
all absent is answered 200 and one record (with absent fields) is persisted,
where the claim, the spec and the guide variant of the same lambda require a
400 client error and no write. -/
theorem c1_missing_fields_still_persisted :
    (srcHandler "POST" "/api/contact" (Except.ok {}) 0 "ts"
        (Except.ok ())).statusCode = 200 ∧
    (srcHandler "POST" "/api/contact" (Except.ok {}) 0 "ts"
        (Except.ok ())).writes =
      [{ id := 0, name := none, email := none, subject := none,
         message := none, createdAt := "ts" }] := by
  decide

/-- C2: when the store write fails, the handler in
src/server/simple-lambda.js does return 500 with the generic message, but the
response body also carries the original error detail (error.message) in its
error field, which the claim says is never exposed to the caller. -/
theorem c2_error_detail_exposed :
    (srcHandler "POST" "/api/contact" (Except.ok validBody) 0 "ts"
        (Except.error "connection refused")).statusCode = 500 ∧
    ("error", "connection refused") ∈
      (srcHandler "POST" "/api/contact" (Except.ok validBody) 0 "ts"
        (Except.error "connection refused")).bodyFields := by
  decide

/-- C4 counterexample: a GET to /api/health is not served by the handler in
src/server/simple-lambda.js; it falls through to the 404 branch, so the claim
that /api/health is answered 200 with status ok fails on this input. -/
theorem c4_api_health_not_found :
    (srcHandler "GET" "/api/health" (Except.ok {}) 0
        "2026-10-11T00:00:00.000Z" (Except.ok ())).statusCode = 404 := by
  decide

/-- C4 amended: a GET to /health is answered 200 with exactly the fields
status = "ok" and timestamp = the ISO-8601 rendering of the current clock
(which passes the ISO shape check whenever the clock rendering does). -/
theorem c4_health_ok (body : Except String ContactBody) (now : Int)
    (nowIso : String) (db : Except String Unit)
    (h : isoCheck nowIso = true) :
    (srcHandler "GET" "/health" body now nowIso db).statusCode = 200 ∧
    (srcHandler "GET" "/health" body now nowIso db).bodyFields =
      [("status", "ok"), ("timestamp", nowIso)] ∧
    isoCheck nowIso = true :=
  ⟨rfl, rfl, h⟩

/-- C4 witness: the amended health-route theorem at a concrete ISO
timestamp. -/
theorem c4_health_ok_witness :
    (srcHandler "GET" "/health" (Except.ok {}) 0 "2026-10-11T00:00:00.000Z"
        (Except.ok ())).statusCode = 200 ∧
    (srcHandler "GET" "/health" (Except.ok {}) 0 "2026-10-11T00:00:00.000Z"
        (Except.ok ())).bodyFields =
      [("status", "ok"), ("timestamp", "2026-10-11T00:00:00.000Z")] ∧
    isoCheck "2026-10-11T00:00:00.000Z" = true :=
  c4_health_ok (Except.ok {}) 0 "2026-10-11T00:00:00.000Z" (Except.ok ())
    (by decide)

/-- C9 counterexample: two sequential identical POST /api/contact calls that
observe the same Date.now() millisecond produce records with the same id, so
the claim that two sequential identical calls always get distinct ids fails. -/
theorem c9_same_clock_same_id :
    srcContactIds validBody 1000 1000 = [1000, 1000] := by
  decide

/-- C9 amended: the record id is the clock reading at write time — for any
parsed body, including one that carries a client-supplied id, the single
record written by a successful POST has id equal to Date.now() — and two
sequential identical calls get distinct ids exactly when their clock readings
differ. -/
theorem c9_id_from_clock (b : ContactBody) (t1 t2 : Int) (h : t1 ≠ t2) :
    srcContactIds b t1 t2 = [t1, t2] ∧ (srcContactIds b t1 t2).Nodup := by
  refine ⟨rfl, ?_⟩
  show ([t1, t2] : List Int).Nodup
  simp [h]

/-- C9 witness: the amended id theorem at a concrete body carrying a
client-supplied id and two distinct clock readings. -/
theorem c9_id_from_clock_witness :
    srcContactIds bodyWithId 1 2 = [1, 2] ∧
    (srcContactIds bodyWithId 1 2).Nodup :=
  c9_id_from_clock bodyWithId 1 2 (by decide)

/-- C3 counterexample: resizing the 1000-wide viewport down to 300 by 200
keeps the star array exactly as it was, and the surviving star sits at
x = 500, outside the new bounds — so the claim that a resize regenerates
every population with positions inside the new bounds fails. -/
theorem c3_resize_keeps_stale_positions :
    (resizeCanvas galaxyCex 300 200).stars = galaxyCex.stars ∧
    galaxyCex.stars.map Star.x = [500] ∧
    (resizeCanvas galaxyCex 300 200).width = 300 ∧
    ¬ ((500 : ℚ) ≤ 300) :=
  ⟨rfl, rfl, rfl, by norm_num⟩

/-- C3 amended: the resize listener only updates the drawing-surface size;
none of the particle populations is regenerated — stars, nebula clouds and
shooting stars are untouched, so their positions are not redistributed and
may lie outside the new bounds. -/
theorem c3_resize_only_resizes (g : GalaxyState) (w h : ℚ) :
    (resizeCanvas g w h).width = w ∧
    (resizeCanvas g w h).height = h ∧
    (resizeCanvas g w h).stars = g.stars ∧
    (resizeCanvas g w h).nebulaClouds = g.nebulaClouds ∧
    (resizeCanvas g w h).shootingStars = g.shootingStars :=
  ⟨rfl, rfl, rfl, rfl, rfl⟩

/-- C5 counterexample: with sStarA and sStarB adjacent in the array, the
frame pass expires sStarA (life hits 0) and splices it out, which makes the
iteration skip sStarB: sStarB stays in the active set through the whole frame
with its life still 5, so its remaining-life counter did not strictly
decrease on that frame. -/
theorem c5_skipped_star_life_unchanged :
    shootingPass 1000 1000 [sStarA, sStarB] = [sStarB] ∧ sStarB.life = 5 := by
  norm_num [shootingPass, updateSStar, sStarA, sStarB]

/-- C6 counterexample: starting from an empty active set with a spawn roll
below the threshold, running the frame in the order the code uses (spawn,
then update-and-removal pass) differs from running removal before the spawn
check as the claim states: the code order already advances and decrements the
newly spawned star in its birth frame. -/
theorem c6_spawn_before_removal :
    shootingFrame 1000 1000 0 0 0 0 0 0 0 [] ≠
      removeThenSpawnFrame 1000 1000 0 0 0 0 0 0 0 [] := by
  norm_num [shootingFrame, removeThenSpawnFrame, createShootingStar,
    mkShootingStar, shootingPass, updateSStar]

/-- C5 amended: a shooting star visited by the frame pass has its life
decremented and is removed when, after the update, its life is not positive
or it left the canvas; because removal splices the array inside the
iteration, the element right after a removed star is skipped (kept unchanged)
for that frame; still, whenever every star in the active set has positive
life at the start of a frame, every star in the set after the pass has
positive life, so no star with life below or at zero survives a frame. -/
theorem c5_active_life_positive (W H : ℚ) (l : List SStar)
    (hl : ∀ s ∈ l, 0 < s.life) (s : SStar)
    (hs : s ∈ shootingPass W H l) : 0 < s.life := by
  revert hl s
  induction l using shootingPass.induct W H with
  | case1 =>
    intro _ s hs
    simp [shootingPass] at hs
  | case2 a h =>
    intro _ s hs
    simp only [shootingPass] at hs
    rw [if_pos h] at hs
    simp at hs
  | case3 a h =>
    intro _ s hs
    simp only [shootingPass] at hs
    rw [if_neg h] at hs
    push_neg at h
    rw [List.mem_singleton] at hs
    exact hs ▸ h.1
  | case4 a b rest h ih =>
    intro hl s hs
    simp only [shootingPass] at hs
    rw [if_pos h] at hs
    rcases List.mem_cons.mp hs with rfl | hs
    · exact hl s (by simp)
    · exact ih (fun t ht => hl t (by simp [ht])) s hs
  | case5 a b rest h ih =>
    intro hl s hs
    simp only [shootingPass] at hs
    rw [if_neg h] at hs
    rcases List.mem_cons.mp hs with rfl | hs
    · push_neg at h
      exact h.1
    · exact ih (fun t ht => hl t (by simp [ht])) s hs

/-- C5 witness: the positive-life invariant applied to a singleton active
set holding cStar. -/
theorem c5_active_life_positive_witness : 0 < (updateSStar cStar).life :=
  c5_active_life_positive 1000 1000 [cStar]
    (by norm_num [cStar]) (updateSStar cStar)
    (by norm_num [shootingPass, updateSStar, cStar])

/-- The frame pass never adds an element to the shooting-star array. -/
theorem shootingPass_length_le (W H : ℚ) (l : List SStar) :
    (shootingPass W H l).length ≤ l.length := by
  induction l using shootingPass.induct W H with
  | case1 => simp [shootingPass]
  | case2 a h =>
    simp only [shootingPass]
    rw [if_pos h]
    simp
  | case3 a h =>
    simp only [shootingPass]
    rw [if_neg h]
    simp
  | case4 a b rest h ih =>
    simp only [shootingPass]
    rw [if_pos h]
    simp only [List.length_cons]
    omega
  | case5 a b rest h ih =>
    simp only [shootingPass]
    rw [if_neg h]
    simp only [List.length_cons] at ih ⊢
    omega

/-- C6 amended: within one frame the spawn check runs first and the
update-and-removal pass runs after it over the already extended array (not
removal before spawn as claimed), and the active set still grows by at most
one element per frame. -/
theorem c6_frame_grows_by_at_most_one (W H roll r1 r2 r3 r4 r5 r6 : ℚ)
    (l : List SStar) :
    shootingFrame W H roll r1 r2 r3 r4 r5 r6 l =
      shootingPass W H (createShootingStar W H roll r1 r2 r3 r4 r5 r6 l) ∧
    (shootingFrame W H roll r1 r2 r3 r4 r5 r6 l).length ≤ l.length + 1 := by
  refine ⟨rfl, ?_⟩
  unfold shootingFrame createShootingStar
  by_cases hr : roll < 8 / 1000
  · rw [if_pos hr]
    have h := shootingPass_length_le W H
      (l ++ [mkShootingStar W H r1 r2 r3 r4 r5 r6])
    simpa using h
  · rw [if_neg hr]
    exact le_trans (shootingPass_length_le W H l) (Nat.le_succ _)

/-- Iterating the star frame preserves the number of stars. -/
theorem starsFrame_iter_length (n : Nat) (l : List Star) :
    (starsFrame^[n] l).length = l.length := by
  induction n with
  | zero => rfl
  | succ k ih =>
    rw [Function.iterate_succ_apply']
    simp [starsFrame, ih]

/-- Iterating the star frame preserves every star's x coordinate. -/
theorem starsFrame_iter_x (n : Nat) (l : List Star) :
    (starsFrame^[n] l).map Star.x = l.map Star.x := by
  induction n with
  | zero => rfl
  | succ k ih =>
    rw [Function.iterate_succ_apply']
    show ((starsFrame^[k] l).map starStep).map Star.x = l.map Star.x
    rw [List.map_map]
    have hc : Star.x ∘ starStep = Star.x := funext fun s => rfl
    rw [hc]
    exact ih

/-- Iterating the star frame preserves every star's y coordinate. -/
theorem starsFrame_iter_y (n : Nat) (l : List Star) :
    (starsFrame^[n] l).map Star.y = l.map Star.y := by
  induction n with
  | zero => rfl
  | succ k ih =>
    rw [Function.iterate_succ_apply']
    show ((starsFrame^[k] l).map starStep).map Star.y = l.map Star.y
    rw [List.map_map]
    have hc : Star.y ∘ starStep = Star.y := funext fun s => rfl
    rw [hc]
    exact ih

/-- Iterating the nebula frame preserves the number of clouds. -/
theorem cloudsFrame_iter_length (n : Nat) (l : List NebulaCloud) :
    (cloudsFrame^[n] l).length = l.length := by
  induction n with
  | zero => rfl
  | succ k ih =>
    rw [Function.iterate_succ_apply']
    simp [cloudsFrame, ih]

/-- C7 amended: stars and nebula clouds persist — after any number of frames
no star or cloud has been added or removed, and every star keeps its exact
position (stars never move, so a star inside the viewport stays inside);
nebula clouds, however, drift each frame with no wrapping at the edges. -/
theorem c7_populations_persist (n : Nat) (stars : List Star)
    (clouds : List NebulaCloud) :
    (starsFrame^[n] stars).length = stars.length ∧
    (starsFrame^[n] stars).map Star.x = stars.map Star.x ∧
    (starsFrame^[n] stars).map Star.y = stars.map Star.y ∧
    (cloudsFrame^[n] clouds).length = clouds.length :=
  ⟨starsFrame_iter_length n stars, starsFrame_iter_x n stars,
   starsFrame_iter_y n stars, cloudsFrame_iter_length n clouds⟩

/-- C7 counterexample: a nebula cloud on the right edge of a 1000-wide
viewport drifts past the edge in one frame — there is no wrapping in the
nebula update, so the claim that positions wrap at the viewport edges and
stay within bounds fails. -/
theorem c7_cloud_exits_viewport :
    cloudCex.x = 1000 ∧ 1000 < (nebulaStep cloudCex).x := by
  refine ⟨rfl, ?_⟩
  have hx : (nebulaStep cloudCex).x
      = cloudCex.x + Real.sin ((cloudCex.pulsePhase + 0.08) * 0.5) * 0.3 := rfl
  rw [hx]
  have hp : (cloudCex.pulsePhase + 0.08) * 0.5 = Real.pi / 2 := by
    show ((Real.pi - 0.08) + 0.08) * 0.5 = Real.pi / 2
    ring
  rw [hp, Real.sin_pi_div_two]
  have hcx : cloudCex.x = (1000 : ℝ) := rfl
  rw [hcx]
  norm_num

/-- C8: for a star with nonnegative base brightness and positive twinkle
speed (both hold for every star the initializer creates), the rendered
brightness lies between 0 and the base brightness, the twinkle phase strictly
increases each frame, and the rendered brightness depends on the phase only
modulo two pi. -/
theorem c8_brightness_and_phase (s : Star) (hb : 0 ≤ s.brightness)
    (hs : 0 < s.twinkleSpeed) :
    0 ≤ renderedBrightness s ∧
    renderedBrightness s ≤ s.brightness ∧
    s.twinklePhase < (starStep s).twinklePhase ∧
    renderedBrightness
        { s with twinklePhase := s.twinklePhase + 2 * Real.pi } =
      renderedBrightness s := by
  have hsin1 : Real.sin s.twinklePhase ≤ 1 := Real.sin_le_one _
  have hsin2 : -1 ≤ Real.sin s.twinklePhase := Real.neg_one_le_sin _
  refine ⟨?_, ?_, ?_, ?_⟩
  · unfold renderedBrightness
    have : (0 : ℝ) ≤ 0.5 + 0.5 * Real.sin s.twinklePhase := by linarith
    exact mul_nonneg hb this
  · unfold renderedBrightness
    have : (0.5 : ℝ) + 0.5 * Real.sin s.twinklePhase ≤ 1 := by linarith
    exact mul_le_of_le_one_right hb this
  · show s.twinklePhase < s.twinklePhase + s.twinkleSpeed
    linarith
  · unfold renderedBrightness
    show s.brightness * (0.5 + 0.5 * Real.sin (s.twinklePhase + 2 * Real.pi))
        = s.brightness * (0.5 + 0.5 * Real.sin s.twinklePhase)
    rw [Real.sin_add_two_pi]

/-- C8 witness: the brightness and phase theorem applied to starW. -/
theorem c8_brightness_and_phase_witness :
    0 ≤ renderedBrightness starW ∧
    renderedBrightness starW ≤ starW.brightness ∧
    starW.twinklePhase < (starStep starW).twinklePhase ∧
    renderedBrightness
        { starW with twinklePhase := starW.twinklePhase + 2 * Real.pi } =
      renderedBrightness starW :=
  c8_brightness_and_phase starW (by norm_num [starW]) (by norm_num [starW])

/-- Closed form of n frames of shooting-star motion: position advances
linearly by the (unchanged) velocity. -/
theorem updateSStar_iter (S : SStar) (n : Nat) :
    (updateSStar^[n] S).x = S.x + n * S.vx ∧
    (updateSStar^[n] S).y = S.y + n * S.vy ∧
    (updateSStar^[n] S).vx = S.vx ∧
    (updateSStar^[n] S).vy = S.vy := by
  induction n with
  | zero => simp
  | succ k ih =>
    obtain ⟨hx, hy, hvx, hvy⟩ := ih
    rw [Function.iterate_succ_apply']
    refine ⟨?_, ?_, ?_, ?_⟩
    · show (updateSStar^[k] S).x + (updateSStar^[k] S).vx
          = S.x + ((k + 1 : Nat) : ℚ) * S.vx
      rw [hx, hvx]
      push_cast
      ring
    · show (updateSStar^[k] S).y + (updateSStar^[k] S).vy
          = S.y + ((k + 1 : Nat) : ℚ) * S.vy
      rw [hy, hvy]
      push_cast
      ring
    · exact hvx
    · exact hvy

/-- C10: a freshly spawned shooting star starts in the top half of the
viewport with vx in the interval from 4 to 12 and vy in the interval from 2
to 6, both strictly positive; hence along every frame its x and y strictly
increase and never become negative, so it can only leave through the right
or bottom edge — which is why the removal test needs to check only
x > width and y > height. -/
theorem c10_spawn_and_monotone (W H r1 r2 r3 r4 r5 r6 : ℚ) (n : Nat)
    (hW : 0 ≤ W) (hH : 0 < H)
    (h1 : 0 ≤ r1) (h2 : 0 ≤ r2) (h2' : r2 < 1)
    (h3 : 0 ≤ r3) (h3' : r3 < 1) (h4 : 0 ≤ r4) (h4' : r4 < 1) :
    0 ≤ (mkShootingStar W H r1 r2 r3 r4 r5 r6).y ∧
    (mkShootingStar W H r1 r2 r3 r4 r5 r6).y < H / 2 ∧
    4 ≤ (mkShootingStar W H r1 r2 r3 r4 r5 r6).vx ∧
    (mkShootingStar W H r1 r2 r3 r4 r5 r6).vx < 12 ∧
    2 ≤ (mkShootingStar W H r1 r2 r3 r4 r5 r6).vy ∧
    (mkShootingStar W H r1 r2 r3 r4 r5 r6).vy < 6 ∧
    0 ≤ (updateSStar^[n] (mkShootingStar W H r1 r2 r3 r4 r5 r6)).x ∧
    0 ≤ (updateSStar^[n] (mkShootingStar W H r1 r2 r3 r4 r5 r6)).y ∧
    (updateSStar^[n] (mkShootingStar W H r1 r2 r3 r4 r5 r6)).x <
      (updateSStar^[n + 1] (mkShootingStar W H r1 r2 r3 r4 r5 r6)).x ∧
    (updateSStar^[n] (mkShootingStar W H r1 r2 r3 r4 r5 r6)).y <
      (updateSStar^[n + 1] (mkShootingStar W H r1 r2 r3 r4 r5 r6)).y := by
  obtain ⟨hx, hy, hvx, hvy⟩ :=
    updateSStar_iter (mkShootingStar W H r1 r2 r3 r4 r5 r6) n
  have hSx : (mkShootingStar W H r1 r2 r3 r4 r5 r6).x = r1 * W := rfl
  have hSy : (mkShootingStar W H r1 r2 r3 r4 r5 r6).y = r2 * H * (1 / 2) := rfl
  have hSvx : (mkShootingStar W H r1 r2 r3 r4 r5 r6).vx = r3 * 8 + 4 := rfl
  have hSvy : (mkShootingStar W H r1 r2 r3 r4 r5 r6).vy = r4 * 4 + 2 := rfl
  have hn : (0 : ℚ) ≤ (n : ℚ) := Nat.cast_nonneg n
  have h8 : (0 : ℚ) ≤ r3 * 8 := mul_nonneg h3 (by norm_num)
  have h4v : (0 : ℚ) ≤ r4 * 4 := mul_nonneg h4 (by norm_num)
  have hvx0 : (0 : ℚ) < r3 * 8 + 4 := by linarith
  have hvy0 : (0 : ℚ) < r4 * 4 + 2 := by linarith
  have hr3 : r3 * 8 < 8 := by
    have := mul_lt_mul_of_pos_right h3' (show (0 : ℚ) < 8 by norm_num)
    linarith
  have hr4 : r4 * 4 < 4 := by
    have := mul_lt_mul_of_pos_right h4' (show (0 : ℚ) < 4 by norm_num)
    linarith
  have hxW : (0 : ℚ) ≤ r1 * W := mul_nonneg h1 hW
  have hyH : (0 : ℚ) ≤ r2 * H := mul_nonneg h2 hH.le
  have hyH2 : r2 * H < H := by
    have := mul_lt_mul_of_pos_right h2' hH
    linarith
  have hnvx : (0 : ℚ) ≤ (n : ℚ) * (r3 * 8 + 4) := mul_nonneg hn hvx0.le
  have hnvy : (0 : ℚ) ≤ (n : ℚ) * (r4 * 4 + 2) := mul_nonneg hn hvy0.le
  refine ⟨?_, ?_, ?_, ?_, ?_, ?_, ?_, ?_, ?_, ?_⟩
  · rw [hSy]
    linarith
  · rw [hSy]
    linarith
  · rw [hSvx]
    linarith
  · rw [hSvx]
    linarith
  · rw [hSvy]
    linarith
  · rw [hSvy]
    linarith
  · rw [hx, hSx, hSvx]
    linarith
  · rw [hy, hSy, hSvy]
    linarith
  · rw [Function.iterate_succ_apply']
    show (updateSStar^[n] (mkShootingStar W H r1 r2 r3 r4 r5 r6)).x <
      (updateSStar^[n] (mkShootingStar W H r1 r2 r3 r4 r5 r6)).x +
        (updateSStar^[n] (mkShootingStar W H r1 r2 r3 r4 r5 r6)).vx
    rw [hvx, hSvx]
    linarith
  · rw [Function.iterate_succ_apply']
    show (updateSStar^[n] (mkShootingStar W H r1 r2 r3 r4 r5 r6)).y <
      (updateSStar^[n] (mkShootingStar W H r1 r2 r3 r4 r5 r6)).y +
        (updateSStar^[n] (mkShootingStar W H r1 r2 r3 r4 r5 r6)).vy
    rw [hvy, hSvy]
    linarith

/-- C10 witness: the spawn and motion theorem on a 100 by 100 viewport with
all random draws 0, observed at frame 2. -/
theorem c10_spawn_and_monotone_witness :
    0 ≤ (mkShootingStar 100 100 0 0 0 0 0 0).y ∧
    (mkShootingStar 100 100 0 0 0 0 0 0).y < 100 / 2 ∧
    4 ≤ (mkShootingStar 100 100 0 0 0 0 0 0).vx ∧
    (mkShootingStar 100 100 0 0 0 0 0 0).vx < 12 ∧
    2 ≤ (mkShootingStar 100 100 0 0 0 0 0 0).vy ∧
    (mkShootingStar 100 100 0 0 0 0 0 0).vy < 6 ∧
    0 ≤ (updateSStar^[2] (mkShootingStar 100 100 0 0 0 0 0 0)).x ∧
    0 ≤ (updateSStar^[2] (mkShootingStar 100 100 0 0 0 0 0 0)).y ∧
    (updateSStar^[2] (mkShootingStar 100 100 0 0 0 0 0 0)).x <
      (updateSStar^[2 + 1] (mkShootingStar 100 100 0 0 0 0 0 0)).x ∧
    (updateSStar^[2] (mkShootingStar 100 100 0 0 0 0 0 0)).y <
      (updateSStar^[2 + 1] (mkShootingStar 100 100 0 0 0 0 0 0)).y :=
  c10_spawn_and_monotone 100 100 0 0 0 0 0 0 2 (by norm_num) (by norm_num)
    (by norm_num) (by norm_num) (by norm_num) (by norm_num) (by norm_num)
    (by norm_num) (by norm_num)

end Portfolio
